import Mathlib

/-!
Verification of the session-booking scheduler and OAuth token lifecycle of the
Aurora backend. The definitions below are a shallow embedding of the relevant
JavaScript source:

  - src/controllers/learnerController.js  (bookSession, cancelSession)
  - src/utils/googleCalendar.js           (retryWithBackoff, refreshAccessToken,
                                           createCalendarEvent, generateMeetLink)
  - src/controllers/calendarController.js (handleCalendarCallback,
                                           disconnectCalendar, getCalendarStatus)

Conventions of the embedding:
  - Instants are integers in milliseconds; calendar dates are integer epoch
    days. A single instant per request models the several `new Date()` calls
    made within one request handler.
  - JavaScript falsy string fields (undefined / null / empty string) are
    modelled as `none` of an `Option String`.
  - Database reads are supplied through an environment record, and the
    side effects of a request (queries, token refresh, write-backs, calendar
    call, session insertion) are reported as an ordered effect trace.
-/

namespace Aurora

/-- Availability entry of a speaker (models the `availability` subdocument of
the User schema): day-of-week name, optional start and end times in "HH:MM",
and the `isAvailable` flag. `none` for a time models a missing or empty
(falsy) string. -/
structure AvailEntry where
  day : String
  startTime : Option String
  endTime : Option String
  isAvailable : Bool
deriving Repr, DecidableEq

/-- Google Calendar credential subdocument of the User schema
(`googleCalendar`): tokens, expiry and the `connected` flag. -/
structure GoogleCalendarCred where
  accessToken : Option String
  refreshToken : Option String
  expiresAt : Option Int
  connected : Bool
deriving Repr, DecidableEq

/-- The speaker fields read by `bookSession`. -/
structure Speaker where
  email : String
  availability : List AvailEntry
  googleCalendar : GoogleCalendarCred
deriving Repr, DecidableEq

/-- The learner fields read by `bookSession`. -/
structure Learner where
  email : String
deriving Repr, DecidableEq

/-- A persisted session record (models the Session document as created and
queried by the booking and cancellation handlers). `day` is the calendar
date of the session as an epoch day. -/
structure SessionRec where
  title : String
  speaker : String
  learner : String
  day : Int
  time : String
  duration : Nat
  topics : List String
  icebreaker : String
  meetingLink : String
  status : String
deriving Repr, DecidableEq

/-- Is `c` an ASCII decimal digit? -/
def isDigitChar (c : Char) : Bool := decide ('0' ≤ c) && decide (c ≤ '9')

/-- Numeric value of a digit character. -/
def digitVal (c : Char) : Nat := c.toNat - '0'.toNat

/-- Models the controller's time-format test
`time.match(/^(\d{1,2}):(\d{2})$/)`: one or two digits, a colon, exactly two
digits; returns the captured hour and minute values. -/
def matchTimeRegex (s : String) : Option (Nat × Nat) :=
  match s.toList with
  | [h1, c, m1, m2] =>
      if c = ':' && isDigitChar h1 && isDigitChar m1 && isDigitChar m2 then
        some (digitVal h1, digitVal m1 * 10 + digitVal m2)
      else none
  | [h1, h2, c, m1, m2] =>
      if c = ':' && isDigitChar h1 && isDigitChar h2 && isDigitChar m1 && isDigitChar m2 then
        some (digitVal h1 * 10 + digitVal h2, digitVal m1 * 10 + digitVal m2)
      else none
  | _ => none

/-- Split a character list on colons (the list analogue of
`timeStr.split(':')`). -/
def splitOnColonAux : List Char → List Char → List (List Char)
  | [], acc => [acc.reverse]
  | c :: rest, acc =>
    if c = ':' then acc.reverse :: splitOnColonAux rest []
    else splitOnColonAux rest (c :: acc)

/-- Split a string on colons into its character chunks. -/
def splitOnColon (s : String) : List (List Char) := splitOnColonAux s.toList []

/-- Parse a nonempty all-digit character list as a natural number (the
behaviour of JavaScript `Number` on well-formed digit strings). -/
def parseNatDigits (cs : List Char) : Option Nat :=
  if cs ≠ [] ∧ cs.all isDigitChar then
    some (cs.foldl (fun n c => n * 10 + digitVal c) 0)
  else none

/-- Models the controller's `timeToMinutes` helper
(`timeStr.split(':').map(Number)` then `h * 60 + m`) on well-formed
"HH:MM" strings. -/
def timeToMinutes (s : String) : Nat :=
  match (splitOnColon s).map parseNatDigits with
  | [some h, some m] => h * 60 + m
  | _ => 0

/-- Day names indexed by JavaScript `Date.getDay()` (0 = Sunday). -/
def dayNames : List String :=
  ["sunday", "monday", "tuesday", "wednesday", "thursday", "friday", "saturday"]

/-- Result of the availability gate of `bookSession`. -/
inductive AvailCheck where
  | notAvailableOnDay
  | outsideHours (startTime endTime : String)
  | ok
deriving Repr, DecidableEq

/-- The availability gate of `bookSession` (learnerController.js lines
389-423): find the first entry for the requested day; reject if absent or
not available; otherwise default missing times to "00:00" / "23:59" and
require the 30-minute candidate window to fit in the day window. -/
def checkAvailability (avail : List AvailEntry) (requestedDay : String)
    (requestedMinutes : Nat) : AvailCheck :=
  match avail.find? (fun a => a.day = requestedDay) with
  | none => .notAvailableOnDay
  | some a =>
    if !a.isAvailable then .notAvailableOnDay
    else
      let startTime := a.startTime.getD "00:00"
      let endTime := a.endTime.getD "23:59"
      let startMinutes := timeToMinutes startTime
      let endMinutes := timeToMinutes endTime
      if requestedMinutes < startMinutes || requestedMinutes + 30 > endMinutes then
        .outsideHours startTime endTime
      else .ok

/-- The overlap test of the conflict gate (learnerController.js line 445):
the candidate slot starting at `requestedMinutes` conflicts with an existing
slot starting at `existingMinutes`, both 30 minutes long, iff
requested start < existing end AND requested end > existing start. -/
def hasConflictWith (existingMinutes requestedMinutes : Nat) : Bool :=
  decide (requestedMinutes < existingMinutes + 30) &&
  decide (requestedMinutes + 30 > existingMinutes)

/-- The conflict-gate loop: first existing session whose slot overlaps the
candidate slot. -/
def findConflict (existing : List SessionRec) (requestedMinutes : Nat) :
    Option SessionRec :=
  existing.find? (fun s => hasConflictWith (timeToMinutes s.time) requestedMinutes)

/-- The session query of the conflict gate (`Session.find` with the speaker,
a same-calendar-date range and status scheduled). -/
def sessionsForSpeakerOnDate (store : List SessionRec) (speakerId : String)
    (day : Int) : List SessionRec :=
  store.filter (fun s => s.speaker = speakerId && s.day = day && s.status = "scheduled")

/-- Result of `createCalendarEvent` in googleCalendar.js: a success flag and
the meeting link chosen (never a thrown exception and never an empty link). -/
structure CalendarResult where
  success : Bool
  meetLink : String
deriving Repr, DecidableEq

/-- Models `createCalendarEvent` (googleCalendar.js lines 343-427) with the
remote call's outcome abstracted: on success the link is the provider's
conference entry point or hangout link, defaulting to
"https://meet.google.com" when both are absent; on any error the function
catches it and returns success false with the constant fallback link
"https://meet.google.com". -/
def createCalendarEvent (remoteOk : Bool) (providerLink : Option String) :
    CalendarResult :=
  if remoteOk then
    { success := true, meetLink := providerLink.getD "https://meet.google.com" }
  else
    { success := false, meetLink := "https://meet.google.com" }

/-- The lowercase alphabet used by `generateMeetLink`. -/
def lowercaseChars : List Char := "abcdefghijklmnopqrstuvwxyz".toList

/-- Models `generateMeetLink` (googleCalendar.js lines 432-443) with its nine
random character choices made explicit: three trigraphs of lowercase letters
joined by dashes, appended to "https://meet.google.com/". -/
def generateMeetLink (r : Fin 9 → Fin 26) : String :=
  let c : Fin 9 → Char := fun i => lowercaseChars.getD (r i).val 'a'
  "https://meet.google.com/" ++ String.mk
    [c 0, c 1, c 2, '-', c 3, c 4, c 5, '-', c 6, c 7, c 8]

/-- Is `c` a lowercase ASCII letter? -/
def isLowerAlpha (c : Char) : Bool := decide ('a' ≤ c) && decide (c ≤ 'z')

/-- Does a character list spell three lowercase trigraphs joined by dashes
(xxx-xxx-xxx)? -/
def isTrigraphCode : List Char → Bool
  | [a, b, c, d1, d, e, f, d2, g, h, i] =>
      d1 = '-' && d2 = '-' &&
      isLowerAlpha a && isLowerAlpha b && isLowerAlpha c &&
      isLowerAlpha d && isLowerAlpha e && isLowerAlpha f &&
      isLowerAlpha g && isLowerAlpha h && isLowerAlpha i
  | _ => false

/-- Is the first list a prefix of the second? -/
def hasPrefixChars : List Char → List Char → Bool
  | [], _ => true
  | _ :: _, [] => false
  | p :: ps, c :: cs => p = c && hasPrefixChars ps cs

/-- Is `s` a meeting link of the form https://meet.google.com/xxx-xxx-xxx
with lowercase trigraphs? -/
def isTrigraphMeetLink (s : String) : Bool :=
  hasPrefixChars "https://meet.google.com/".toList s.toList &&
  isTrigraphCode (s.toList.drop 24)

/-- The refreshed token pair returned by a successful token refresh. -/
structure RefreshedTokens where
  accessToken : String
  expiryDate : Option Int
deriving Repr, DecidableEq

/-- The parsed combined date+time of a booking request, as produced by
`new Date(dateTimeString)`: the calendar date as an epoch day and the
day-of-week as returned by `getDay()` (0 = Sunday). -/
structure DateVal where
  epochDay : Int
  dow : Fin 7
deriving Repr, DecidableEq

/-- The instant, in milliseconds, of a parsed date at a given time of day in
minutes since midnight. -/
def dateInstantMs (d : DateVal) (minutesOfDay : Nat) : Int :=
  (d.epochDay * 1440 + minutesOfDay) * 60000

/-- A side effect performed by the booking handler, in order: a speaker
lookup, a learner lookup, the same-day session query, a token refresh call,
the write-back of refreshed tokens, the remote calendar-event creation, and
the insertion of the new session record. -/
inductive Eff where
  | querySpeaker (speakerId : String)
  | queryLearner
  | querySessions
  | tokenRefresh
  | writeTokens (accessToken : String) (expiresAt : Option Int)
  | calendarCreate
  | insertSession (s : SessionRec)
deriving Repr, DecidableEq

/-- The outcome of a booking request, one constructor per early-return of
`bookSession` plus the success case. -/
inductive BookOutcome where
  | missingFields
  | tooManyTopics
  | speakerNotFound
  | calendarNotConnected
  | learnerNotFound
  | invalidTimeFormat
  | invalidTimeValues
  | invalidDate
  | inPast
  | notAvailableOnDay (day : String)
  | outsideHours (startTime endTime : String)
  | slotTaken (existingTime : String)
  | refreshFailed
  | booked (session : SessionRec) (calendarCreated : Bool) (meetLink : String)
deriving Repr, DecidableEq

/-- Did the booking fail with the slot-taken error? -/
def BookOutcome.isSlotTaken : BookOutcome → Bool
  | .slotTaken _ => true
  | _ => false

/-- Did the booking fail with one of the two availability errors (day not
available, or time outside the day's hours)? -/
def BookOutcome.isOutsideAvailability : BookOutcome → Bool
  | .notAvailableOnDay _ => true
  | .outsideHours _ _ => true
  | _ => false

/-- Does an effect trace contain a session insertion? -/
def createsSession (tr : List Eff) : Bool :=
  tr.any (fun e => match e with | .insertSession _ => true | _ => false)

/-- The body of a booking request (`req.body`). Absent `topics` is modelled
as the empty list (the controller substitutes the empty list for a falsy
`topics`). -/
structure BookRequest where
  speakerId : String
  title : String
  date : String
  time : String
  topics : List String
deriving Repr, DecidableEq

/-- The environment of one booking request: results of the database lookups,
the parse of the combined date+time string, the current instant, and the
outcomes of the external calls. `dateParse` is `none` when
`new Date` yields an invalid date. `refreshOutcome` is `none` when the
token refresh throws. `remoteOk` and `providerLink` describe the remote
calendar-event insertion. `randomLink` is the value `generateMeetLink`
would produce, `icebreaker` the randomly chosen prompt. -/
structure BookEnv where
  speaker : Option Speaker
  learner : Option Learner
  store : List SessionRec
  dateParse : Option DateVal
  nowMs : Int
  refreshOutcome : Option RefreshedTokens
  remoteOk : Bool
  providerLink : Option String
  randomLink : String
  icebreaker : String
deriving Repr, DecidableEq

/-- The last phase of `bookSession` (learnerController.js lines 484-527):
remote calendar-event creation, meeting-link selection
(`calendarResult.meetLink || generateMeetLink()` — the generator is used
only when the result link is falsy), session insertion with status
scheduled, and the response carrying `calendar.created`. -/
def bookFinish (req : BookRequest) (learnerId : String) (env : BookEnv)
    (validTopics : List String) (day : Int) (tr : List Eff) :
    BookOutcome × List Eff :=
  let calRes := createCalendarEvent env.remoteOk env.providerLink
  let meetLink := if calRes.meetLink = "" then env.randomLink else calRes.meetLink
  let sessionRec : SessionRec :=
    { title := req.title, speaker := req.speakerId, learner := learnerId,
      day := day, time := req.time, duration := 30, topics := validTopics,
      icebreaker := env.icebreaker, meetingLink := meetLink,
      status := "scheduled" }
  (.booked sessionRec calRes.success meetLink,
    tr ++ [.calendarCreate, .insertSession sessionRec])

/-- The booking handler `bookSession` (learnerController.js lines 257-540),
as a function from the request, the caller identity and the request
environment to an outcome and the ordered trace of side effects. The gates
appear in the source's order: required fields, topics cap, speaker lookup,
calendar-connection check, learner lookup, time-format and time-range
validation, date parse, future check, availability gate, same-day session
query and conflict gate, token refresh when the stored expiry has passed,
then calendar creation and persistence. -/
def bookSession (req : BookRequest) (learnerId : String) (env : BookEnv) :
    BookOutcome × List Eff :=
  if req.speakerId = "" || req.title = "" || req.date = "" || req.time = "" then
    (.missingFields, [])
  else
    let validTopics := req.topics.filter (fun t => t.trim ≠ "")
    if validTopics.length > 2 then (.tooManyTopics, [])
    else
      match env.speaker with
      | none => (.speakerNotFound, [.querySpeaker req.speakerId])
      | some speaker =>
        if !speaker.googleCalendar.connected then
          (.calendarNotConnected, [.querySpeaker req.speakerId])
        else
          match env.learner with
          | none => (.learnerNotFound, [.querySpeaker req.speakerId, .queryLearner])
          | some _ =>
            let tr2 : List Eff := [.querySpeaker req.speakerId, .queryLearner]
            match matchTimeRegex req.time with
            | none => (.invalidTimeFormat, tr2)
            | some (hours, minutes) =>
              if hours > 23 || minutes > 59 then (.invalidTimeValues, tr2)
              else
                match env.dateParse with
                | none => (.invalidDate, tr2)
                | some dv =>
                  let requestedMinutes := hours * 60 + minutes
                  if dateInstantMs dv requestedMinutes ≤ env.nowMs then
                    (.inPast, tr2)
                  else
                    let requestedDay := dayNames.getD dv.dow.val ""
                    match checkAvailability speaker.availability requestedDay
                        requestedMinutes with
                    | .notAvailableOnDay => (.notAvailableOnDay requestedDay, tr2)
                    | .outsideHours st et => (.outsideHours st et, tr2)
                    | .ok =>
                      let existing :=
                        sessionsForSpeakerOnDate env.store req.speakerId dv.epochDay
                      let tr3 := tr2 ++ [.querySessions]
                      match findConflict existing requestedMinutes with
                      | some conflictSession => (.slotTaken conflictSession.time, tr3)
                      | none =>
                        let needRefresh :=
                          match speaker.googleCalendar.expiresAt with
                          | some exp => decide (env.nowMs ≥ exp)
                          | none => false
                        if needRefresh then
                          match env.refreshOutcome with
                          | none => (.refreshFailed, tr3 ++ [.tokenRefresh])
                          | some rt =>
                            bookFinish req learnerId env validTopics dv.epochDay
                              (tr3 ++ [.tokenRefresh,
                                .writeTokens rt.accessToken rt.expiryDate])
                        else
                          bookFinish req learnerId env validTopics dv.epochDay tr3

/-- An error thrown by an external Google call, identified by its `code`
property when it is one of the transient network codes, or by its message
otherwise (invalid or revoked tokens arrive as `other`). -/
inductive JsErr where
  | timedOut
  | connReset
  | dnsNotFound
  | other (msg : String)
deriving Repr, DecidableEq

/-- The transient-error classifier of `retryWithBackoff` (googleCalendar.js
line 82): only the codes ETIMEDOUT, ECONNRESET and ENOTFOUND are retried. -/
def isTransientErr : JsErr → Bool
  | .timedOut => true
  | .connReset => true
  | .dnsNotFound => true
  | .other _ => false

/-- What a run of `retryWithBackoff` did: its final result, the number of
attempts actually made, and the backoff waits (in milliseconds) slept
between consecutive attempts. -/
structure RetryResult (α : Type) where
  result : Except JsErr α
  attemptsMade : Nat
  waitsMs : List Nat
deriving Repr

/-- One iteration of the `retryWithBackoff` loop (googleCalendar.js lines
76-92), recursing on the remaining iteration count. `fn attempt` is the
outcome of the wrapped call on that attempt. The loop stops with the error
when the attempt is the last one or the error is not transient; otherwise it
sleeps `delay * 2 ^ (attempt - 1)` milliseconds and retries. The fuel-0 case
models the `undefined` falling out of the loop when `maxRetries = 0`. -/
def retryGo {α : Type} (fn : Nat → Except JsErr α) (maxRetries delay : Nat) :
    Nat → Nat → RetryResult α
  | _, 0 => ⟨.error (.other "loop exhausted"), 0, []⟩
  | attempt, remaining + 1 =>
    match fn attempt with
    | .ok a => ⟨.ok a, attempt, []⟩
    | .error e =>
      if attempt = maxRetries || !isTransientErr e then ⟨.error e, attempt, []⟩
      else
        let wait := delay * 2 ^ (attempt - 1)
        let rest := retryGo fn maxRetries delay (attempt + 1) remaining
        ⟨rest.result, rest.attemptsMade, wait :: rest.waitsMs⟩

/-- `retryWithBackoff` (googleCalendar.js lines 76-92) with its default
parameters `maxRetries = 3`, `delay = 1000`: attempts start at 1. -/
def retryWithBackoff {α : Type} (fn : Nat → Except JsErr α)
    (maxRetries : Nat := 3) (delay : Nat := 1000) : RetryResult α :=
  retryGo fn maxRetries delay 1 maxRetries

/-- The retry loop inside `refreshAccessToken` (googleCalendar.js line 182):
`retryWithBackoff(fn, 3, 1000)` around the provider's refresh call. -/
def refreshAccessTokenRetry (fn : Nat → Except JsErr RefreshedTokens) :
    RetryResult RefreshedTokens :=
  retryWithBackoff fn 3 1000

/-- The retry loop inside `getTokensFromCode` (googleCalendar.js line 101):
`retryWithBackoff(fn, 3, 1000)` around the authorization-code exchange. -/
def getTokensFromCodeRetry {α : Type} (fn : Nat → Except JsErr α) :
    RetryResult α :=
  retryWithBackoff fn 3 1000

/-- JavaScript `Math.round` on an exact rational: floor of x + 1/2. -/
def jsRound (x : ℚ) : ℤ := ⌊x + 1 / 2⌋

/-- `Math.round(x * 10) / 10`: rounding to one decimal place. -/
def jsRound1 (x : ℚ) : ℚ := (jsRound (x * 10) : ℚ) / 10

/-- Outcome of a cancellation request, one constructor per early return of
`cancelSession` plus the success case. The too-late error carries the
`hoursUntilSession` payload of the response (remaining hours rounded to one
decimal place). -/
inductive CancelOutcome where
  | notFound
  | alreadyStarted
  | tooLate (hoursUntilSession : ℚ)
  | cancelled
deriving DecidableEq

/-- The session fields read and written by `cancelSession`. `day` is the
calendar date of the stored `date` field as an epoch day; the handler
recombines it with the "HH:MM" `time` field to get the start instant. -/
structure CancelSession where
  learner : String
  status : String
  day : Int
  time : String
  cancellationReason : Option String
  cancelledAt : Option Int
  cancelledBy : Option String
deriving Repr, DecidableEq

/-- The start instant of a stored session, recomputed from its date and its
"HH:MM" time as in `cancelSession` (learnerController.js lines 566-568). -/
def cancelStartMs (s : CancelSession) : Int :=
  (s.day * 1440 + timeToMinutes s.time) * 60000

/-- The cancellation handler `cancelSession` (learnerController.js lines
545-612) for the acting learner: the lookup requires the session to belong
to the learner with status scheduled; a session whose recomputed start is
not in the future cannot be cancelled; one less than 24 hours away fails
with the remaining hours rounded to one decimal; otherwise the record gets
status cancelled, the reason (defaulted to the empty string), `cancelledAt`
and `cancelledBy`. The second component is the stored record after the
request: unchanged except on success. -/
def cancelSession (s : CancelSession) (learnerId : String)
    (reason : Option String) (nowMs : Int) : CancelOutcome × CancelSession :=
  if s.learner ≠ learnerId ∨ s.status ≠ "scheduled" then (.notFound, s)
  else if cancelStartMs s ≤ nowMs then (.alreadyStarted, s)
  else
    let hoursUntilSession : ℚ := ((cancelStartMs s - nowMs : ℤ) : ℚ) / 3600000
    if hoursUntilSession < 24 then (.tooLate (jsRound1 hoursUntilSession), s)
    else
      (.cancelled,
        { s with status := "cancelled",
                 cancellationReason := some (reason.getD ""),
                 cancelledAt := some nowMs,
                 cancelledBy := some learnerId })

/-- The credential invariant of the data model: a connected credential holds
both tokens. -/
def credInvariant (c : GoogleCalendarCred) : Bool :=
  !c.connected || (c.accessToken.isSome && c.refreshToken.isSome)

/-- The credential write of the OAuth callback handler
(calendarController.js lines 54-63): store the exchanged tokens and expiry
and set connected. The provider's code exchange returns an access and a
refresh token (strings) and an optional expiry. -/
def applyOAuthCallback (_c : GoogleCalendarCred) (accessToken refreshToken : String)
    (expiryDate : Option Int) : GoogleCalendarCred :=
  { accessToken := some accessToken, refreshToken := some refreshToken,
    expiresAt := expiryDate, connected := true }

/-- The credential write of `disconnectCalendar` (calendarController.js
lines 175-184): both tokens and the expiry become null, connected becomes
false. -/
def applyDisconnect (_c : GoogleCalendarCred) : GoogleCalendarCred :=
  { accessToken := none, refreshToken := none, expiresAt := none,
    connected := false }

/-- The credential write-back after a successful token refresh during
booking (learnerController.js lines 465-468): the new access token and
expiry are stored, the refresh token is untouched. -/
def applyRefreshWriteBack (c : GoogleCalendarCred) (newAccess : String)
    (newExpiry : Option Int) : GoogleCalendarCred :=
  { c with accessToken := some newAccess, expiresAt := newExpiry }

/-- The credential write of the status check when a refresh failure names an
invalid or revoked token (calendarController.js lines 123-125): connected
becomes false, nothing else changes. -/
def applyStatusInvalidate (c : GoogleCalendarCred) : GoogleCalendarCred :=
  { c with connected := false }

/-- C9: the overlap test of the booking conflict check is symmetric — for
any two 30-minute slots for the same speaker on the same date, slot A
conflicts with slot B under the rule startA < startB + 30 AND
startA + 30 > startB iff slot B conflicts with slot A. -/
theorem hasConflictWith_symm (a b : Nat) :
    hasConflictWith a b = hasConflictWith b a := by
  unfold hasConflictWith
  exact Bool.and_comm _ _

/-- C10: when the availability entry matched for the candidate's day has
isAvailable true but a missing or empty startTime or endTime, the check
substitutes "00:00" for the start (lower bound 0) and "23:59" for the end
(upper bound 1439 minutes); with both times missing every candidate whose
start + 30 minutes does not exceed 1439 passes. -/
theorem checkAvailability_default_times (avail : List AvailEntry) (d : String)
    (req : Nat) (e : AvailEntry)
    (hf : avail.find? (fun a => a.day = d) = some e)
    (ha : e.isAvailable = true) :
    (e.startTime = none → e.endTime = none →
      (checkAvailability avail d req = .ok ↔ req + 30 ≤ 1439)) ∧
    (∀ et, e.startTime = none → e.endTime = some et →
      (checkAvailability avail d req = .ok ↔ req + 30 ≤ timeToMinutes et)) ∧
    (∀ st, e.startTime = some st → e.endTime = none →
      (checkAvailability avail d req = .ok ↔
        timeToMinutes st ≤ req ∧ req + 30 ≤ 1439)) := by
  unfold checkAvailability
  rw [hf]
  simp only [ha]
  refine ⟨?_, ?_, ?_⟩
  · intro hs he
    rw [hs, he]
    have h00 : timeToMinutes ((none : Option String).getD "00:00") = 0 := by decide
    have h2359 : timeToMinutes ((none : Option String).getD "23:59") = 1439 := by decide
    rw [h00, h2359]
    constructor
    · intro h
      by_contra hc
      simp only [show (req < 0 || req + 30 > 1439) = true by simp; omega] at h
      simp at h
    · intro h
      simp only [show (req < 0 || req + 30 > 1439) = false by simp; omega]
      simp
  · intro et hs he
    rw [hs, he]
    have h00 : timeToMinutes ((none : Option String).getD "00:00") = 0 := by decide
    have hsome : ((some et : Option String).getD "23:59") = et := rfl
    rw [h00, hsome]
    constructor
    · intro h
      by_contra hc
      simp only [show (req < 0 || req + 30 > timeToMinutes et) = true by simp; omega] at h
      simp at h
    · intro h
      simp only [show (req < 0 || req + 30 > timeToMinutes et) = false by simp; omega]
      simp
  · intro st hs he
    rw [hs, he]
    have h2359 : timeToMinutes ((none : Option String).getD "23:59") = 1439 := by decide
    have hsome : ((some st : Option String).getD "00:00") = st := rfl
    rw [h2359, hsome]
    constructor
    · intro h
      by_contra hc
      simp only [show (req < timeToMinutes st || req + 30 > 1439) = true by simp; omega] at h
      simp at h
    · intro h
      simp only [show (req < timeToMinutes st || req + 30 > 1439) = false by simp; omega]
      simp

/-- Witness for C10: a concrete speaker availability set whose Monday entry
is available with both times missing accepts 09:00 because 540 + 30 ≤ 1439. -/
theorem checkAvailability_default_times_witness :
    checkAvailability [⟨"monday", none, none, true⟩] "monday" 540 = .ok := by
  have h := checkAvailability_default_times
    [⟨"monday", none, none, true⟩] "monday" 540 ⟨"monday", none, none, true⟩
    (by decide) (by decide)
  exact (h.1 rfl rfl).mpr (by decide)

/-- C1: once a booking request has passed field validation, the speaker and
learner lookups, the calendar-connection check and the availability check,
it fails with the slot-taken error iff some session in the store for that
speaker with status scheduled on the same calendar date satisfies
candidateStart < existingStart + 30 AND candidateStart + 30 > existingStart
(half-open 30-minute windows; touching endpoints do not conflict), and no
session record is created on that failure. -/
theorem bookSession_slotTaken_iff
    (req : BookRequest) (lid : String) (env : BookEnv)
    (sp : Speaker) (l : Learner) (dv : DateVal) (h m : Nat)
    (hsp : req.speakerId ≠ "") (hti : req.title ≠ "")
    (hda : req.date ≠ "") (htm : req.time ≠ "")
    (htop : (req.topics.filter (fun t => t.trim ≠ "")).length ≤ 2)
    (hS : env.speaker = some sp)
    (hconn : sp.googleCalendar.connected = true)
    (hL : env.learner = some l)
    (hre : matchTimeRegex req.time = some (h, m))
    (hh : h ≤ 23) (hm : m ≤ 59)
    (hD : env.dateParse = some dv)
    (hfut : env.nowMs < dateInstantMs dv (h * 60 + m))
    (hav : checkAvailability sp.availability (dayNames.getD dv.dow.val "")
      (h * 60 + m) = .ok) :
    ((bookSession req lid env).1.isSlotTaken = true ↔
      ∃ s ∈ env.store, s.speaker = req.speakerId ∧ s.day = dv.epochDay ∧
        s.status = "scheduled" ∧
        h * 60 + m < timeToMinutes s.time + 30 ∧
        h * 60 + m + 30 > timeToMinutes s.time) ∧
    ((bookSession req lid env).1.isSlotTaken = true →
      createsSession (bookSession req lid env).2 = false) := by
  have hnottop : ¬ ((req.topics.filter (fun t => t.trim ≠ "")).length > 2) := by omega
  have hnoth : ¬ (h > 23) := by omega
  have hnotm : ¬ (m > 59) := by omega
  have hnotpast : ¬ (dateInstantMs dv (h * 60 + m) ≤ env.nowMs) := not_le.mpr hfut
  have hbody : bookSession req lid env =
      (match findConflict (sessionsForSpeakerOnDate env.store req.speakerId dv.epochDay)
          (h * 60 + m) with
        | some conflictSession =>
          (.slotTaken conflictSession.time,
            [.querySpeaker req.speakerId, .queryLearner] ++ [.querySessions])
        | none =>
          let needRefresh :=
            match sp.googleCalendar.expiresAt with
            | some exp => decide (env.nowMs ≥ exp)
            | none => false
          if needRefresh then
            match env.refreshOutcome with
            | none => (.refreshFailed,
                [.querySpeaker req.speakerId, .queryLearner] ++
                  [.querySessions] ++ [.tokenRefresh])
            | some rt =>
              bookFinish req lid env (req.topics.filter (fun t => t.trim ≠ ""))
                dv.epochDay
                ([.querySpeaker req.speakerId, .queryLearner] ++ [.querySessions] ++
                  [.tokenRefresh, .writeTokens rt.accessToken rt.expiryDate])
          else
            bookFinish req lid env (req.topics.filter (fun t => t.trim ≠ ""))
              dv.epochDay
              ([.querySpeaker req.speakerId, .queryLearner] ++ [.querySessions])) := by
    unfold bookSession
    simp only [hS, hL, hre, hD, hconn, hav, hsp, hti, hda, htm, hnottop, hnoth,
      hnotm, hnotpast, decide_eq_true_eq, Bool.not_true, Bool.false_or,
      Bool.or_self, Bool.or_false, decide_eq_false, if_false, gt_iff_lt,
      not_false_eq_true, ite_false]
    simp [hnottop, hnoth, hnotm, hnotpast]
  constructor
  · rw [hbody]
    cases hfc : findConflict (sessionsForSpeakerOnDate env.store req.speakerId
        dv.epochDay) (h * 60 + m) with
    | some cs =>
      simp only [BookOutcome.isSlotTaken, true_iff]
      have hmem := List.mem_of_find?_eq_some hfc
      have hp := List.find?_some hfc
      unfold sessionsForSpeakerOnDate at hmem
      rw [List.mem_filter] at hmem
      refine ⟨cs, hmem.1, ?_⟩
      have hflt := hmem.2
      simp only [Bool.and_eq_true, decide_eq_true_eq] at hflt
      simp only [hasConflictWith, Bool.and_eq_true, decide_eq_true_eq] at hp
      exact ⟨hflt.1.1, hflt.1.2, hflt.2, hp.1, hp.2⟩
    | none =>
      have hnone : ∀ s ∈ env.store, s.speaker = req.speakerId → s.day = dv.epochDay →
          s.status = "scheduled" →
          ¬ (h * 60 + m < timeToMinutes s.time + 30 ∧
             h * 60 + m + 30 > timeToMinutes s.time) := by
        intro s hs h1 h2 h3 hc
        have hmemf : s ∈ sessionsForSpeakerOnDate env.store req.speakerId dv.epochDay := by
          unfold sessionsForSpeakerOnDate
          rw [List.mem_filter]
          exact ⟨hs, by simp [h1, h2, h3]⟩
        have := List.find?_eq_none.mp hfc s hmemf
        simp only [hasConflictWith, Bool.and_eq_true, decide_eq_true_eq,
          not_and, Bool.not_eq_true] at this
        rcases hc with ⟨hc1, hc2⟩
        simp [hasConflictWith, hc1, hc2] at this
      have hright : ¬ ∃ s ∈ env.store, s.speaker = req.speakerId ∧
          s.day = dv.epochDay ∧ s.status = "scheduled" ∧
          h * 60 + m < timeToMinutes s.time + 30 ∧
          h * 60 + m + 30 > timeToMinutes s.time := by
        rintro ⟨s, hs, h1, h2, h3, h4, h5⟩
        exact hnone s hs h1 h2 h3 ⟨h4, h5⟩
      cases hexp : sp.googleCalendar.expiresAt with
      | none =>
        simp only [hexp, if_neg]
        simp [BookOutcome.isSlotTaken, bookFinish, hright]
      | some exp =>
        by_cases hge : env.nowMs ≥ exp
        · cases hro : env.refreshOutcome with
          | none => simp [hexp, hge, hro, BookOutcome.isSlotTaken, hright]
          | some rt => simp [hexp, hge, hro, BookOutcome.isSlotTaken, bookFinish, hright]
        · simp [hexp, hge, BookOutcome.isSlotTaken, bookFinish, hright]
  · intro hst
    rw [hbody] at hst ⊢
    cases hfc : findConflict (sessionsForSpeakerOnDate env.store req.speakerId
        dv.epochDay) (h * 60 + m) with
    | some cs => simp [createsSession]
    | none =>
      rw [hfc] at hst
      exfalso
      cases hexp : sp.googleCalendar.expiresAt with
      | none =>
        rw [hexp] at hst
        simp [BookOutcome.isSlotTaken, bookFinish] at hst
      | some exp =>
        rw [hexp] at hst
        by_cases hge : env.nowMs ≥ exp
        · cases hro : env.refreshOutcome with
          | none => rw [hro] at hst; simp [hge, BookOutcome.isSlotTaken] at hst
          | some rt => rw [hro] at hst; simp [hge, BookOutcome.isSlotTaken, bookFinish] at hst
        · simp [hge, BookOutcome.isSlotTaken, bookFinish] at hst

/-- A speaker available on Mondays 09:00-17:00 with a live connected
credential, used by the concrete witnesses below. -/
def mondaySpeaker : Speaker :=
  { email := "speaker@example.com",
    availability := [⟨"monday", some "09:00", some "17:00", true⟩],
    googleCalendar := ⟨some "at0", some "rt0", some 1000000000000, true⟩ }

/-- A previously booked Monday 10:00 session of that speaker. -/
def monday1000Session : SessionRec :=
  { title := "prev", speaker := "sp1", learner := "l0", day := 20738,
    time := "10:00", duration := 30, topics := [], icebreaker := "i0",
    meetingLink := "m0", status := "scheduled" }

/-- Witness for C1: booking Monday 10:15 against an existing scheduled
Monday 10:00 session of the same speaker fails with the slot-taken error
(the windows 600-630 and 615-645 overlap). -/
theorem bookSession_slotTaken_iff_witness :
    (bookSession ⟨"sp1", "Chat", "2026-10-12", "10:15", []⟩ "l1"
      { speaker := some mondaySpeaker, learner := some ⟨"l@example.com"⟩,
        store := [monday1000Session],
        dateParse := some ⟨20738, ⟨1, by omega⟩⟩, nowMs := 0,
        refreshOutcome := none, remoteOk := true, providerLink := none,
        randomLink := "r", icebreaker := "ib" }).1.isSlotTaken = true := by
  exact (bookSession_slotTaken_iff
    ⟨"sp1", "Chat", "2026-10-12", "10:15", []⟩ "l1"
    { speaker := some mondaySpeaker, learner := some ⟨"l@example.com"⟩,
      store := [monday1000Session],
      dateParse := some ⟨20738, ⟨1, by omega⟩⟩, nowMs := 0,
      refreshOutcome := none, remoteOk := true, providerLink := none,
      randomLink := "r", icebreaker := "ib" }
    mondaySpeaker ⟨"l@example.com"⟩ ⟨20738, ⟨1, by omega⟩⟩ 10 15
    (by decide) (by decide) (by decide) (by decide) (by decide)
    rfl (by decide) rfl (by decide) (by omega) (by omega) rfl
    (by decide) (by decide)).1.mpr
    ⟨monday1000Session, by decide, by decide, by decide, by decide,
      by decide, by decide⟩

/-- C2: once a booking request has passed the gates before the availability
check (fields, topics, speaker lookup, calendar connection, learner lookup,
time validation, date parse, future check), and the speaker's availability
set has at most one entry per day with well-formed times, the availability
check passes iff the set has an entry for the candidate's day-of-week with
isAvailable true whose window contains the candidate's 30-minute slot
(candidateStart at least startMinutes and candidateStart + 30 at most
endMinutes); when every entry for that day is absent or unavailable the
booking fails with the day-not-available error and no session is created. -/
theorem bookSession_availability_iff
    (req : BookRequest) (lid : String) (env : BookEnv)
    (sp : Speaker) (l : Learner) (dv : DateVal) (h m : Nat)
    (hsp : req.speakerId ≠ "") (hti : req.title ≠ "")
    (hda : req.date ≠ "") (htm : req.time ≠ "")
    (htop : (req.topics.filter (fun t => t.trim ≠ "")).length ≤ 2)
    (hS : env.speaker = some sp)
    (hconn : sp.googleCalendar.connected = true)
    (hL : env.learner = some l)
    (hre : matchTimeRegex req.time = some (h, m))
    (hh : h ≤ 23) (hm : m ≤ 59)
    (hD : env.dateParse = some dv)
    (hfut : env.nowMs < dateInstantMs dv (h * 60 + m))
    (huniq : ∀ e1 ∈ sp.availability, ∀ e2 ∈ sp.availability,
      e1.day = e2.day → e1 = e2)
    (htimes : ∀ e ∈ sp.availability, e.startTime.isSome ∧ e.endTime.isSome) :
    ((bookSession req lid env).1.isOutsideAvailability = false ↔
      ∃ e ∈ sp.availability, e.day = dayNames.getD dv.dow.val "" ∧
        e.isAvailable = true ∧
        ∃ st et, e.startTime = some st ∧ e.endTime = some et ∧
          timeToMinutes st ≤ h * 60 + m ∧
          h * 60 + m + 30 ≤ timeToMinutes et) ∧
    ((∀ e ∈ sp.availability, e.day = dayNames.getD dv.dow.val "" →
        e.isAvailable = false) →
      (bookSession req lid env).1 =
        .notAvailableOnDay (dayNames.getD dv.dow.val "") ∧
      createsSession (bookSession req lid env).2 = false) := by
  have hnottop : ¬ ((req.topics.filter (fun t => t.trim ≠ "")).length > 2) := by omega
  have hnoth : ¬ (h > 23) := by omega
  have hnotm : ¬ (m > 59) := by omega
  have hnotpast : ¬ (dateInstantMs dv (h * 60 + m) ≤ env.nowMs) := not_le.mpr hfut
  set d := dayNames.getD dv.dow.val "" with hd
  have hbody : bookSession req lid env =
      (match checkAvailability sp.availability d (h * 60 + m) with
        | .notAvailableOnDay =>
          (.notAvailableOnDay d, [.querySpeaker req.speakerId, .queryLearner])
        | .outsideHours st et =>
          (.outsideHours st et, [.querySpeaker req.speakerId, .queryLearner])
        | .ok =>
          match findConflict (sessionsForSpeakerOnDate env.store req.speakerId
              dv.epochDay) (h * 60 + m) with
          | some conflictSession =>
            (.slotTaken conflictSession.time,
              [.querySpeaker req.speakerId, .queryLearner] ++ [.querySessions])
          | none =>
            let needRefresh :=
              match sp.googleCalendar.expiresAt with
              | some exp => decide (env.nowMs ≥ exp)
              | none => false
            if needRefresh then
              match env.refreshOutcome with
              | none => (.refreshFailed,
                  [.querySpeaker req.speakerId, .queryLearner] ++
                    [.querySessions] ++ [.tokenRefresh])
              | some rt =>
                bookFinish req lid env (req.topics.filter (fun t => t.trim ≠ ""))
                  dv.epochDay
                  ([.querySpeaker req.speakerId, .queryLearner] ++
                    [.querySessions] ++
                    [.tokenRefresh, .writeTokens rt.accessToken rt.expiryDate])
            else
              bookFinish req lid env (req.topics.filter (fun t => t.trim ≠ ""))
                dv.epochDay
                ([.querySpeaker req.speakerId, .queryLearner] ++
                  [.querySessions])) := by
    unfold bookSession
    simp only [hS, hL, hre, hD, hconn, hsp, hti, hda, htm, hnottop, hnoth,
      hnotm, hnotpast, decide_eq_true_eq, Bool.not_true, Bool.false_or,
      Bool.or_self, Bool.or_false, decide_eq_false, if_false, gt_iff_lt,
      not_false_eq_true, ite_false]
    simp [hnottop, hnoth, hnotm, hnotpast, hd]
  have hafterok : checkAvailability sp.availability d (h * 60 + m) = .ok →
      (bookSession req lid env).1.isOutsideAvailability = false := by
    intro hok
    rw [hbody, hok]
    cases hfc : findConflict (sessionsForSpeakerOnDate env.store req.speakerId
        dv.epochDay) (h * 60 + m) with
    | some cs => simp [BookOutcome.isOutsideAvailability]
    | none =>
      cases hexp : sp.googleCalendar.expiresAt with
      | none => simp [BookOutcome.isOutsideAvailability, bookFinish]
      | some exp =>
        by_cases hge : env.nowMs ≥ exp
        · cases hro : env.refreshOutcome with
          | none => simp [hge, hro, BookOutcome.isOutsideAvailability]
          | some rt => simp [hge, hro, BookOutcome.isOutsideAvailability, bookFinish]
        · simp [hge, BookOutcome.isOutsideAvailability, bookFinish]
  constructor
  · cases hfind : sp.availability.find? (fun a => a.day = d) with
    | none =>
      have hnoentry := List.find?_eq_none.mp hfind
      have hcheck : checkAvailability sp.availability d (h * 60 + m) =
          .notAvailableOnDay := by
        unfold checkAvailability
        rw [hfind]
      constructor
      · intro hfalse
        rw [hbody, hcheck] at hfalse
        simp [BookOutcome.isOutsideAvailability] at hfalse
      · rintro ⟨e, he, hday, _⟩
        have := hnoentry e he
        simp [hday] at this
    | some a =>
      have hamem := List.mem_of_find?_eq_some hfind
      have haday : a.day = d := by
        have := List.find?_some hfind
        simpa using this
      by_cases hava : a.isAvailable
      · obtain ⟨hst, het⟩ := htimes a hamem
        obtain ⟨st, hsteq⟩ := Option.isSome_iff_exists.mp hst
        obtain ⟨et, heteq⟩ := Option.isSome_iff_exists.mp het
        have hcheck : checkAvailability sp.availability d (h * 60 + m) =
            (if h * 60 + m < timeToMinutes st ∨
                h * 60 + m + 30 > timeToMinutes et then
              .outsideHours st et
            else .ok) := by
          unfold checkAvailability
          rw [hfind]
          simp [hava, hsteq, heteq]
        by_cases hbounds : timeToMinutes st ≤ h * 60 + m ∧
            h * 60 + m + 30 ≤ timeToMinutes et
        · have hok : checkAvailability sp.availability d (h * 60 + m) = .ok := by
            rw [hcheck, if_neg]
            omega
          constructor
          · intro _
            exact ⟨a, hamem, haday, hava, st, et, hsteq, heteq, hbounds.1, hbounds.2⟩
          · intro _
            exact hafterok hok
        · have hout : checkAvailability sp.availability d (h * 60 + m) =
              .outsideHours st et := by
            rw [hcheck, if_pos]
            omega
          constructor
          · intro hfalse
            rw [hbody, hout] at hfalse
            simp [BookOutcome.isOutsideAvailability] at hfalse
          · rintro ⟨e, he, hday, heav, st2, et2, hst2, het2, hb1, hb2⟩
            have heq : e = a := huniq e he a hamem (by rw [hday, haday])
            subst heq
            rw [hst2] at hsteq
            rw [het2] at heteq
            cases hsteq
            cases heteq
            exact absurd ⟨hb1, hb2⟩ hbounds
      · have hcheck : checkAvailability sp.availability d (h * 60 + m) =
            .notAvailableOnDay := by
          unfold checkAvailability
          rw [hfind]
          simp [hava]
        constructor
        · intro hfalse
          rw [hbody, hcheck] at hfalse
          simp [BookOutcome.isOutsideAvailability] at hfalse
        · rintro ⟨e, he, hday, heav, _⟩
          have heq : e = a := huniq e he a hamem (by rw [hday, haday])
          subst heq
          exact absurd heav (by simpa using hava)
  · intro hall
    have hcheck : checkAvailability sp.availability d (h * 60 + m) =
        .notAvailableOnDay := by
      unfold checkAvailability
      cases hfind : sp.availability.find? (fun a => a.day = d) with
      | none => rfl
      | some a =>
        have hamem := List.mem_of_find?_eq_some hfind
        have haday : a.day = d := by
          have := List.find?_some hfind
          simpa using this
        have := hall a hamem haday
        simp [this]
    rw [hbody, hcheck]
    simp [createsSession]

/-- Witness for C2: the Monday speaker has no Tuesday entry, so a Tuesday
10:00 booking fails with the day-not-available error and creates nothing;
the Monday 10:00 booking passes the availability check. -/
theorem bookSession_availability_iff_witness :
    ((bookSession ⟨"sp1", "Chat", "2026-10-13", "10:00", []⟩ "l1"
      { speaker := some mondaySpeaker, learner := some ⟨"l@example.com"⟩,
        store := [], dateParse := some ⟨20739, ⟨2, by omega⟩⟩, nowMs := 0,
        refreshOutcome := none, remoteOk := true, providerLink := none,
        randomLink := "r", icebreaker := "ib" }).1 =
      .notAvailableOnDay "tuesday") := by
  have h := bookSession_availability_iff
    ⟨"sp1", "Chat", "2026-10-13", "10:00", []⟩ "l1"
    { speaker := some mondaySpeaker, learner := some ⟨"l@example.com"⟩,
      store := [], dateParse := some ⟨20739, ⟨2, by omega⟩⟩, nowMs := 0,
      refreshOutcome := none, remoteOk := true, providerLink := none,
      randomLink := "r", icebreaker := "ib" }
    mondaySpeaker ⟨"l@example.com"⟩ ⟨20739, ⟨2, by omega⟩⟩ 10 0
    (by decide) (by decide) (by decide) (by decide) (by decide)
    rfl (by decide) rfl (by decide) (by omega) (by omega) rfl
    (by decide) (by decide) (by decide)
  exact (h.2 (by decide)).1

/-- Counterexample for C4: the request for "25:00" (outside 00:00-23:59) is
rejected with the invalid-time error, yet the speaker lookup HAS been
performed before that rejection — the trace of the rejected request
contains the speaker query, contradicting the claim that no speaker query
happens before the rejection. -/
theorem bookSession_time_after_lookup_counterexample :
    (bookSession ⟨"sp1", "Chat", "2026-10-12", "25:00", []⟩ "l1"
      { speaker := some mondaySpeaker, learner := some ⟨"l@example.com"⟩,
        store := [], dateParse := none, nowMs := 0,
        refreshOutcome := none, remoteOk := true, providerLink := none,
        randomLink := "r", icebreaker := "ib" }).1 = .invalidTimeValues ∧
    Eff.querySpeaker "sp1" ∈
      (bookSession ⟨"sp1", "Chat", "2026-10-12", "25:00", []⟩ "l1"
        { speaker := some mondaySpeaker, learner := some ⟨"l@example.com"⟩,
          store := [], dateParse := none, nowMs := 0,
          refreshOutcome := none, remoteOk := true, providerLink := none,
          randomLink := "r", icebreaker := "ib" }).2 := by decide

/-- C4 (amended): a malformed or out-of-range time is rejected after the
speaker lookup, the calendar-connection check and the learner lookup, and
before everything later: the rejected request's trace is exactly the
speaker query followed by the learner query — no session query, no token
refresh, no calendar call and no session creation happen. -/
theorem bookSession_invalidTime_rejection
    (req : BookRequest) (lid : String) (env : BookEnv)
    (sp : Speaker) (l : Learner)
    (hsp : req.speakerId ≠ "") (hti : req.title ≠ "")
    (hda : req.date ≠ "") (htm : req.time ≠ "")
    (htop : (req.topics.filter (fun t => t.trim ≠ "")).length ≤ 2)
    (hS : env.speaker = some sp)
    (hconn : sp.googleCalendar.connected = true)
    (hL : env.learner = some l)
    (hbad : matchTimeRegex req.time = none ∨
      ∃ h m, matchTimeRegex req.time = some (h, m) ∧ (h > 23 ∨ m > 59)) :
    (bookSession req lid env).2 = [.querySpeaker req.speakerId, .queryLearner] ∧
    ((bookSession req lid env).1 = .invalidTimeFormat ∨
     (bookSession req lid env).1 = .invalidTimeValues) := by
  have hnottop : ¬ ((req.topics.filter (fun t => t.trim ≠ "")).length > 2) := by omega
  have hnottop2 : ¬ ((req.topics.filter (fun t => !decide (t.trim = ""))).length > 2) := by
    simpa using hnottop
  rcases hbad with hnone | ⟨h, m, hsome, hrange⟩
  · have : bookSession req lid env =
        (.invalidTimeFormat, [.querySpeaker req.speakerId, .queryLearner]) := by
      unfold bookSession
      simp [hS, hL, hnone, hconn, hsp, hti, hda, htm, hnottop, hnottop2]
    rw [this]
    exact ⟨rfl, Or.inl rfl⟩
  · have : bookSession req lid env =
        (.invalidTimeValues, [.querySpeaker req.speakerId, .queryLearner]) := by
      unfold bookSession
      simp [hS, hL, hsome, hconn, hsp, hti, hda, htm, hnottop, hnottop2]
      omega
    rw [this]
    exact ⟨rfl, Or.inr rfl⟩

/-- Witness for C4 (amended): the malformed time "1015" is rejected with
the invalid-format error and the trace is exactly the two lookups. -/
theorem bookSession_invalidTime_rejection_witness :
    (bookSession ⟨"sp1", "Chat", "2026-10-12", "1015", []⟩ "l1"
      { speaker := some mondaySpeaker, learner := some ⟨"l@example.com"⟩,
        store := [], dateParse := none, nowMs := 0,
        refreshOutcome := none, remoteOk := true, providerLink := none,
        randomLink := "r", icebreaker := "ib" }).2 =
      [.querySpeaker "sp1", .queryLearner] := by
  exact (bookSession_invalidTime_rejection
    ⟨"sp1", "Chat", "2026-10-12", "1015", []⟩ "l1"
    { speaker := some mondaySpeaker, learner := some ⟨"l@example.com"⟩,
      store := [], dateParse := none, nowMs := 0,
      refreshOutcome := none, remoteOk := true, providerLink := none,
      randomLink := "r", icebreaker := "ib" }
    mondaySpeaker ⟨"l@example.com"⟩
    (by decide) (by decide) (by decide) (by decide) (by decide)
    rfl (by decide) rfl (Or.inl (by decide))).1

/-- Counterexample for C5: a booking whose stored credential expires 60
seconds after `now` — well inside the claimed 5-minute refresh buffer —
completes without any token refresh attempt: the booking path refreshes
only when `now` has reached the stored expiry itself. -/
theorem bookSession_refresh_buffer_counterexample :
    ((0 : Int) ≥ 60000 - 5 * 60 * 1000 ∧
     Eff.tokenRefresh ∉
      (bookSession ⟨"sp1", "Chat", "2026-10-12", "10:00", []⟩ "l1"
        { speaker := some { mondaySpeaker with
            googleCalendar := ⟨some "at0", some "rt0", some 60000, true⟩ },
          learner := some ⟨"l@example.com"⟩,
          store := [], dateParse := some ⟨20738, ⟨1, by omega⟩⟩, nowMs := 0,
          refreshOutcome := none, remoteOk := true, providerLink := none,
          randomLink := "r", icebreaker := "ib" }).2 ∧
     (bookSession ⟨"sp1", "Chat", "2026-10-12", "10:00", []⟩ "l1"
        { speaker := some { mondaySpeaker with
            googleCalendar := ⟨some "at0", some "rt0", some 60000, true⟩ },
          learner := some ⟨"l@example.com"⟩,
          store := [], dateParse := some ⟨20738, ⟨1, by omega⟩⟩, nowMs := 0,
          refreshOutcome := none, remoteOk := true, providerLink := none,
          randomLink := "r", icebreaker := "ib" }).1 =
      .booked { title := "Chat", speaker := "sp1", learner := "l1",
                day := 20738, time := "10:00", duration := 30, topics := [],
                icebreaker := "ib",
                meetingLink := "https://meet.google.com",
                status := "scheduled" } true "https://meet.google.com") := by
  refine ⟨by omega, by decide, by decide⟩

/-- C5 (amended): in the booking path a token refresh is attempted iff the
stored expiry is present and `now` has reached it (no 5-minute buffer; an
absent expiry means no refresh); on refresh success the new access token
and expiry are written back to the speaker's stored credential before the
calendar call, and on refresh failure the booking fails; when no refresh is
needed the trace has no refresh at all. -/
theorem bookSession_refresh_policy
    (req : BookRequest) (lid : String) (env : BookEnv)
    (sp : Speaker) (l : Learner) (dv : DateVal) (h m : Nat)
    (hsp : req.speakerId ≠ "") (hti : req.title ≠ "")
    (hda : req.date ≠ "") (htm : req.time ≠ "")
    (htop : (req.topics.filter (fun t => t.trim ≠ "")).length ≤ 2)
    (hS : env.speaker = some sp)
    (hconn : sp.googleCalendar.connected = true)
    (hL : env.learner = some l)
    (hre : matchTimeRegex req.time = some (h, m))
    (hh : h ≤ 23) (hm : m ≤ 59)
    (hD : env.dateParse = some dv)
    (hfut : env.nowMs < dateInstantMs dv (h * 60 + m))
    (hav : checkAvailability sp.availability (dayNames.getD dv.dow.val "")
      (h * 60 + m) = .ok)
    (hnc : findConflict (sessionsForSpeakerOnDate env.store req.speakerId
      dv.epochDay) (h * 60 + m) = none) :
    (∀ exp rt, sp.googleCalendar.expiresAt = some exp → env.nowMs ≥ exp →
      env.refreshOutcome = some rt →
      ∃ s link, bookSession req lid env =
        (.booked s (createCalendarEvent env.remoteOk env.providerLink).success
          link,
         [.querySpeaker req.speakerId, .queryLearner, .querySessions,
          .tokenRefresh, .writeTokens rt.accessToken rt.expiryDate,
          .calendarCreate, .insertSession s])) ∧
    (∀ exp, sp.googleCalendar.expiresAt = some exp → env.nowMs ≥ exp →
      env.refreshOutcome = none →
      bookSession req lid env =
        (.refreshFailed,
         [.querySpeaker req.speakerId, .queryLearner, .querySessions,
          .tokenRefresh])) ∧
    ((sp.googleCalendar.expiresAt = none ∨
        ∃ exp, sp.googleCalendar.expiresAt = some exp ∧ env.nowMs < exp) →
      Eff.tokenRefresh ∉ (bookSession req lid env).2) := by
  have hnottop : ¬ ((req.topics.filter (fun t => t.trim ≠ "")).length > 2) := by omega
  have hnoth : ¬ (h > 23) := by omega
  have hnotm : ¬ (m > 59) := by omega
  have hnotpast : ¬ (dateInstantMs dv (h * 60 + m) ≤ env.nowMs) := not_le.mpr hfut
  have hbody : ∀ (o : BookOutcome × List Eff),
      (let needRefresh :=
        match sp.googleCalendar.expiresAt with
        | some exp => decide (env.nowMs ≥ exp)
        | none => false
      if needRefresh then
        match env.refreshOutcome with
        | none => (BookOutcome.refreshFailed,
            ([.querySpeaker req.speakerId, .queryLearner] ++
              [.querySessions] ++ [Eff.tokenRefresh] : List Eff))
        | some rt =>
          bookFinish req lid env (req.topics.filter (fun t => t.trim ≠ ""))
            dv.epochDay
            ([.querySpeaker req.speakerId, .queryLearner] ++ [.querySessions] ++
              [.tokenRefresh, .writeTokens rt.accessToken rt.expiryDate])
      else
        bookFinish req lid env (req.topics.filter (fun t => t.trim ≠ ""))
          dv.epochDay
          ([.querySpeaker req.speakerId, .queryLearner] ++ [.querySessions])) = o →
      bookSession req lid env = o := by
    intro o ho
    rw [← ho]
    unfold bookSession
    simp only [hS, hL, hre, hD, hconn, hav, hnc, hsp, hti, hda, htm, hnottop,
      hnoth, hnotm, hnotpast, decide_eq_true_eq, Bool.not_true, Bool.false_or,
      Bool.or_self, Bool.or_false, decide_eq_false, if_false, gt_iff_lt,
      not_false_eq_true, ite_false]
    simp [hnottop, hnoth, hnotm, hnotpast, hav, hnc]
  refine ⟨?_, ?_, ?_⟩
  · intro exp rt hexp hge hro
    have hstep : bookSession req lid env =
        bookFinish req lid env (req.topics.filter (fun t => t.trim ≠ ""))
          dv.epochDay
          ([.querySpeaker req.speakerId, .queryLearner] ++ [.querySessions] ++
            [.tokenRefresh, .writeTokens rt.accessToken rt.expiryDate]) := by
      apply hbody
      simp [hexp, hro, hge]
    refine
      ⟨{ title := req.title, speaker := req.speakerId, learner := lid,
         day := dv.epochDay, time := req.time, duration := 30,
         topics := req.topics.filter (fun t => t.trim ≠ ""),
         icebreaker := env.icebreaker,
         meetingLink :=
           if (createCalendarEvent env.remoteOk env.providerLink).meetLink = ""
           then env.randomLink
           else (createCalendarEvent env.remoteOk env.providerLink).meetLink,
         status := "scheduled" },
       if (createCalendarEvent env.remoteOk env.providerLink).meetLink = ""
         then env.randomLink
         else (createCalendarEvent env.remoteOk env.providerLink).meetLink, ?_⟩
    rw [hstep]
    unfold bookFinish
    simp
  · intro exp hexp hge hro
    have hstep : bookSession req lid env =
        (BookOutcome.refreshFailed,
          ([.querySpeaker req.speakerId, .queryLearner] ++
            [.querySessions] ++ [Eff.tokenRefresh] : List Eff)) := by
      apply hbody
      simp [hexp, hro, hge]
    rw [hstep]
    simp
  · intro hcase
    have hneed : (match sp.googleCalendar.expiresAt with
        | some exp => decide (env.nowMs ≥ exp)
        | none => false) = false := by
      rcases hcase with hnone | ⟨exp, hexp, hlt⟩
      · rw [hnone]
      · rw [hexp]
        simp
        omega
    have hstep : bookSession req lid env =
        bookFinish req lid env (req.topics.filter (fun t => t.trim ≠ ""))
          dv.epochDay
          ([.querySpeaker req.speakerId, .queryLearner] ++ [.querySessions]) := by
      apply hbody
      simp only [hneed]
      simp
    rw [hstep]
    unfold bookFinish
    simp

/-- Witness for C5 (amended): with the credential already expired
(expiry 0, now 0) and a successful refresh, the booking's trace shows the
refresh followed by the write-back of the new token before the calendar
call. -/
theorem bookSession_refresh_policy_witness :
    ∃ s link, bookSession ⟨"sp1", "Chat", "2026-10-12", "10:00", []⟩ "l1"
      { speaker := some { mondaySpeaker with
          googleCalendar := ⟨some "at0", some "rt0", some 0, true⟩ },
        learner := some ⟨"l@example.com"⟩,
        store := [], dateParse := some ⟨20738, ⟨1, by omega⟩⟩, nowMs := 0,
        refreshOutcome := some ⟨"newAccess", some 777⟩, remoteOk := true,
        providerLink := some "https://meet.google.com/abc-defg-hij",
        randomLink := "r", icebreaker := "ib" } =
      (.booked s
        (createCalendarEvent true
          (some "https://meet.google.com/abc-defg-hij")).success link,
       [.querySpeaker "sp1", .queryLearner, .querySessions, .tokenRefresh,
        .writeTokens "newAccess" (some 777), .calendarCreate,
        .insertSession s]) := by
  have h := (bookSession_refresh_policy
    ⟨"sp1", "Chat", "2026-10-12", "10:00", []⟩ "l1"
    { speaker := some { mondaySpeaker with
        googleCalendar := ⟨some "at0", some "rt0", some 0, true⟩ },
      learner := some ⟨"l@example.com"⟩,
      store := [], dateParse := some ⟨20738, ⟨1, by omega⟩⟩, nowMs := 0,
      refreshOutcome := some ⟨"newAccess", some 777⟩, remoteOk := true,
      providerLink := some "https://meet.google.com/abc-defg-hij",
      randomLink := "r", icebreaker := "ib" }
    { mondaySpeaker with
        googleCalendar := ⟨some "at0", some "rt0", some 0, true⟩ }
    ⟨"l@example.com"⟩ ⟨20738, ⟨1, by omega⟩⟩ 10 0
    (by decide) (by decide) (by decide) (by decide) (by decide)
    rfl (by decide) rfl (by decide) (by omega) (by omega) rfl
    (by decide) (by decide) (by decide)).1 0 ⟨"newAccess", some 777⟩
    rfl (by decide) rfl
  exact h

/-- The first list is a prefix of itself followed by anything. -/
theorem hasPrefixChars_append (xs ys : List Char) :
    hasPrefixChars xs (xs ++ ys) = true := by
  induction xs with
  | nil => rfl
  | cons c cs ih => simp [hasPrefixChars, ih]

/-- Every output of the trigraph generator has the
https://meet.google.com/xxx-xxx-xxx form. -/
theorem generateMeetLink_isTrigraph (r : Fin 9 → Fin 26) :
    isTrigraphMeetLink (generateMeetLink r) = true := by
  have hlow : ∀ v : Nat, v < 26 → isLowerAlpha (lowercaseChars.getD v 'a') = true := by
    intro v hv
    interval_cases v <;> decide
  have hlower : ∀ i : Fin 9, isLowerAlpha (lowercaseChars.getD (r i).val 'a') = true :=
    fun i => hlow (r i).val (r i).isLt
  unfold generateMeetLink isTrigraphMeetLink
  have htl : ("https://meet.google.com/" ++ String.mk
      [lowercaseChars.getD (r 0).val 'a', lowercaseChars.getD (r 1).val 'a',
       lowercaseChars.getD (r 2).val 'a', '-',
       lowercaseChars.getD (r 3).val 'a', lowercaseChars.getD (r 4).val 'a',
       lowercaseChars.getD (r 5).val 'a', '-',
       lowercaseChars.getD (r 6).val 'a', lowercaseChars.getD (r 7).val 'a',
       lowercaseChars.getD (r 8).val 'a']).toList =
      "https://meet.google.com/".toList ++
      [lowercaseChars.getD (r 0).val 'a', lowercaseChars.getD (r 1).val 'a',
       lowercaseChars.getD (r 2).val 'a', '-',
       lowercaseChars.getD (r 3).val 'a', lowercaseChars.getD (r 4).val 'a',
       lowercaseChars.getD (r 5).val 'a', '-',
       lowercaseChars.getD (r 6).val 'a', lowercaseChars.getD (r 7).val 'a',
       lowercaseChars.getD (r 8).val 'a'] := rfl
  simp only [htl]
  rw [show (24 : Nat) = "https://meet.google.com/".toList.length from rfl,
    List.drop_left]
  rw [hasPrefixChars_append]
  simp only [Bool.true_and, isTrigraphCode]
  simp only [List.getD, List.get?_eq_getElem?] at hlower
  simp [hlower 0, hlower 1, hlower 2, hlower 3, hlower 4, hlower 5,
    hlower 6, hlower 7, hlower 8]

/-- Counterexample for C3: with the remote calendar creation failing, the
booking completes and the created session carries the fallback link
"https://meet.google.com", which is NOT of the claimed
https://meet.google.com/xxx-xxx-xxx trigraph form. -/
theorem bookSession_calendar_fallback_counterexample :
    (bookSession ⟨"sp1", "Chat", "2026-10-12", "10:00", []⟩ "l1"
      { speaker := some mondaySpeaker, learner := some ⟨"l@example.com"⟩,
        store := [], dateParse := some ⟨20738, ⟨1, by omega⟩⟩, nowMs := 0,
        refreshOutcome := none, remoteOk := false, providerLink := none,
        randomLink := "https://meet.google.com/zzz-zzz-zzz",
        icebreaker := "ib" }).1 =
      .booked { title := "Chat", speaker := "sp1", learner := "l1",
                day := 20738, time := "10:00", duration := 30, topics := [],
                icebreaker := "ib",
                meetingLink := "https://meet.google.com",
                status := "scheduled" } false "https://meet.google.com" ∧
    isTrigraphMeetLink "https://meet.google.com" = false := by decide

/-- C3 (amended): when the remote calendar-event creation fails, the
creation call does not throw but returns success false with the constant
fallback link "https://meet.google.com" (a bare host link, not the
xxx-xxx-xxx trigraph form — the trigraph generator always produces that
form but is unreachable on this path because the failure result's link is
non-empty); the session is still created with status scheduled carrying
that link, and the response reports calendar.created = false. -/
theorem bookSession_calendar_failure_fallback
    (req : BookRequest) (lid : String) (env : BookEnv)
    (sp : Speaker) (l : Learner) (dv : DateVal) (h m : Nat)
    (hsp : req.speakerId ≠ "") (hti : req.title ≠ "")
    (hda : req.date ≠ "") (htm : req.time ≠ "")
    (htop : (req.topics.filter (fun t => t.trim ≠ "")).length ≤ 2)
    (hS : env.speaker = some sp)
    (hconn : sp.googleCalendar.connected = true)
    (hL : env.learner = some l)
    (hre : matchTimeRegex req.time = some (h, m))
    (hh : h ≤ 23) (hm : m ≤ 59)
    (hD : env.dateParse = some dv)
    (hfut : env.nowMs < dateInstantMs dv (h * 60 + m))
    (hav : checkAvailability sp.availability (dayNames.getD dv.dow.val "")
      (h * 60 + m) = .ok)
    (hnc : findConflict (sessionsForSpeakerOnDate env.store req.speakerId
      dv.epochDay) (h * 60 + m) = none)
    (htok : ∀ exp, sp.googleCalendar.expiresAt = some exp →
      env.nowMs ≥ exp → env.refreshOutcome ≠ none)
    (hrem : env.remoteOk = false) :
    createCalendarEvent env.remoteOk env.providerLink =
      { success := false, meetLink := "https://meet.google.com" } ∧
    ∃ s, (bookSession req lid env).1 =
        .booked s false "https://meet.google.com" ∧
      s.status = "scheduled" ∧
      s.meetingLink = "https://meet.google.com" ∧
      createsSession (bookSession req lid env).2 = true := by
  have hnottop : ¬ ((req.topics.filter (fun t => t.trim ≠ "")).length > 2) := by omega
  have hnoth : ¬ (h > 23) := by omega
  have hnotm : ¬ (m > 59) := by omega
  have hnotpast : ¬ (dateInstantMs dv (h * 60 + m) ≤ env.nowMs) := not_le.mpr hfut
  have hcal : createCalendarEvent env.remoteOk env.providerLink =
      { success := false, meetLink := "https://meet.google.com" } := by
    rw [hrem]
    rfl
  have hbody : ∀ (o : BookOutcome × List Eff),
      (let needRefresh :=
        match sp.googleCalendar.expiresAt with
        | some exp => decide (env.nowMs ≥ exp)
        | none => false
      if needRefresh then
        match env.refreshOutcome with
        | none => (BookOutcome.refreshFailed,
            ([.querySpeaker req.speakerId, .queryLearner] ++
              [.querySessions] ++ [Eff.tokenRefresh] : List Eff))
        | some rt =>
          bookFinish req lid env (req.topics.filter (fun t => t.trim ≠ ""))
            dv.epochDay
            ([.querySpeaker req.speakerId, .queryLearner] ++ [.querySessions] ++
              [.tokenRefresh, .writeTokens rt.accessToken rt.expiryDate])
      else
        bookFinish req lid env (req.topics.filter (fun t => t.trim ≠ ""))
          dv.epochDay
          ([.querySpeaker req.speakerId, .queryLearner] ++ [.querySessions])) = o →
      bookSession req lid env = o := by
    intro o ho
    rw [← ho]
    unfold bookSession
    simp only [hS, hL, hre, hD, hconn, hav, hnc, hsp, hti, hda, htm, hnottop,
      hnoth, hnotm, hnotpast, decide_eq_true_eq, Bool.not_true, Bool.false_or,
      Bool.or_self, Bool.or_false, decide_eq_false, if_false, gt_iff_lt,
      not_false_eq_true, ite_false]
    simp [hnottop, hnoth, hnotm, hnotpast, hav, hnc]
  refine ⟨hcal, ?_⟩
  have hfin : ∀ (tr : List Eff),
      (bookFinish req lid env (req.topics.filter (fun t => t.trim ≠ ""))
        dv.epochDay tr).1 =
        .booked { title := req.title, speaker := req.speakerId,
                  learner := lid,
                  day := dv.epochDay, time := req.time, duration := 30,
                  topics := req.topics.filter (fun t => t.trim ≠ ""),
                  icebreaker := env.icebreaker,
                  meetingLink := "https://meet.google.com",
                  status := "scheduled" } false "https://meet.google.com" ∧
      createsSession (bookFinish req lid env
        (req.topics.filter (fun t => t.trim ≠ "")) dv.epochDay tr).2 = true := by
    intro tr
    unfold bookFinish
    rw [hcal]
    simp [createsSession]
  cases hexp : sp.googleCalendar.expiresAt with
  | none =>
    have hstep : bookSession req lid env =
        bookFinish req lid env (req.topics.filter (fun t => t.trim ≠ ""))
          dv.epochDay
          ([.querySpeaker req.speakerId, .queryLearner] ++ [.querySessions]) := by
      apply hbody
      simp [hexp]
    rw [hstep]
    exact ⟨_, (hfin _).1, rfl, rfl, (hfin _).2⟩
  | some exp =>
    by_cases hge : env.nowMs ≥ exp
    · cases hro : env.refreshOutcome with
      | none => exact absurd hro (htok exp hexp hge)
      | some rt =>
        have hstep : bookSession req lid env =
            bookFinish req lid env (req.topics.filter (fun t => t.trim ≠ ""))
              dv.epochDay
              ([.querySpeaker req.speakerId, .queryLearner] ++ [.querySessions] ++
                [.tokenRefresh, .writeTokens rt.accessToken rt.expiryDate]) := by
          apply hbody
          simp [hexp, hro, hge]
        rw [hstep]
        exact ⟨_, (hfin _).1, rfl, rfl, (hfin _).2⟩
    · have hstep : bookSession req lid env =
          bookFinish req lid env (req.topics.filter (fun t => t.trim ≠ ""))
            dv.epochDay
            ([.querySpeaker req.speakerId, .queryLearner] ++ [.querySessions]) := by
        apply hbody
        simp [hexp, hge]
      rw [hstep]
      exact ⟨_, (hfin _).1, rfl, rfl, (hfin _).2⟩

/-- Witness for C3 (amended): the concrete failing-calendar booking of the
counterexample, via the amended theorem. -/
theorem bookSession_calendar_failure_fallback_witness :
    ∃ s, (bookSession ⟨"sp1", "Chat", "2026-10-12", "10:00", []⟩ "l1"
      { speaker := some mondaySpeaker, learner := some ⟨"l@example.com"⟩,
        store := [], dateParse := some ⟨20738, ⟨1, by omega⟩⟩, nowMs := 0,
        refreshOutcome := none, remoteOk := false, providerLink := none,
        randomLink := "https://meet.google.com/zzz-zzz-zzz",
        icebreaker := "ib" }).1 =
        .booked s false "https://meet.google.com" ∧
      s.status = "scheduled" ∧
      s.meetingLink = "https://meet.google.com" ∧
      createsSession (bookSession ⟨"sp1", "Chat", "2026-10-12", "10:00", []⟩ "l1"
        { speaker := some mondaySpeaker, learner := some ⟨"l@example.com"⟩,
          store := [], dateParse := some ⟨20738, ⟨1, by omega⟩⟩, nowMs := 0,
          refreshOutcome := none, remoteOk := false, providerLink := none,
          randomLink := "https://meet.google.com/zzz-zzz-zzz",
          icebreaker := "ib" }).2 = true := by
  exact (bookSession_calendar_failure_fallback
    ⟨"sp1", "Chat", "2026-10-12", "10:00", []⟩ "l1"
    { speaker := some mondaySpeaker, learner := some ⟨"l@example.com"⟩,
      store := [], dateParse := some ⟨20738, ⟨1, by omega⟩⟩, nowMs := 0,
      refreshOutcome := none, remoteOk := false, providerLink := none,
      randomLink := "https://meet.google.com/zzz-zzz-zzz",
      icebreaker := "ib" }
    mondaySpeaker ⟨"l@example.com"⟩ ⟨20738, ⟨1, by omega⟩⟩ 10 0
    (by decide) (by decide) (by decide) (by decide) (by decide)
    rfl (by decide) rfl (by decide) (by omega) (by omega) rfl
    (by decide) (by decide) (by decide)
    (by
      intro exp hexp hge
      have hnow : ((0 : Int) ≥ exp) := hge
      simp [mondaySpeaker] at hexp
      omega)
    rfl).2

/-- Full unrolling of the three-attempt retry loop: the loop stops at the
first success or the first non-transient error, and sleeps 1000 ms then
2000 ms between consecutive attempts. -/
theorem retry3_eval {α : Type} (fn : Nat → Except JsErr α) :
    retryWithBackoff fn 3 1000 =
      (match fn 1 with
      | .ok a => ⟨.ok a, 1, []⟩
      | .error e1 =>
        if isTransientErr e1 then
          match fn 2 with
          | .ok a => ⟨.ok a, 2, [1000]⟩
          | .error e2 =>
            if isTransientErr e2 then
              match fn 3 with
              | .ok a => ⟨.ok a, 3, [1000, 2000]⟩
              | .error e3 => ⟨.error e3, 3, [1000, 2000]⟩
            else ⟨.error e2, 2, [1000]⟩
        else ⟨.error e1, 1, []⟩ : RetryResult α) := by
  cases h1 : fn 1 with
  | ok a1 => simp [retryWithBackoff, retryGo, h1]
  | error e1 =>
    by_cases t1 : isTransientErr e1
    · cases h2 : fn 2 with
      | ok a2 => simp [retryWithBackoff, retryGo, h1, h2, t1]
      | error e2 =>
        by_cases t2 : isTransientErr e2
        · cases h3 : fn 3 with
          | ok a3 => simp [retryWithBackoff, retryGo, h1, h2, h3, t1, t2]
          | error e3 => simp [retryWithBackoff, retryGo, h1, h2, h3, t1, t2]
        · simp [retryWithBackoff, retryGo, h1, h2, t1, t2]
    · simp [retryWithBackoff, retryGo, h1, t1]

/-- C6: the retry loop wrapped around a failing token refresh (and around a
failing authorization-code exchange) makes at most 3 attempts; the waits
slept between consecutive attempts follow exponential backoff starting at
1000 ms and doubling; every attempt that was followed by another one failed
with a transient network error (ETIMEDOUT, ECONNRESET or ENOTFOUND); and a
non-transient error at any attempt is rethrown immediately, with no further
attempts and no further waits. The refresh and code-exchange wrappers both
instantiate the loop at maxRetries 3 and delay 1000. -/
theorem retryWithBackoff_transient_policy {α : Type}
    (fn : Nat → Except JsErr α) :
    (retryWithBackoff fn 3 1000).attemptsMade ≤ 3 ∧
    (retryWithBackoff fn 3 1000).waitsMs =
      (List.range ((retryWithBackoff fn 3 1000).attemptsMade - 1)).map
        (fun i => 1000 * 2 ^ i) ∧
    (∀ j, 1 ≤ j → j < (retryWithBackoff fn 3 1000).attemptsMade →
      ∃ e, fn j = Except.error e ∧ isTransientErr e = true) ∧
    (∀ a e, 1 ≤ a → a ≤ 3 → fn a = Except.error e → isTransientErr e = false →
      (∀ j, 1 ≤ j → j < a →
        ∃ e2, fn j = Except.error e2 ∧ isTransientErr e2 = true) →
      retryWithBackoff fn 3 1000 =
        ⟨Except.error e, a, (List.range (a - 1)).map (fun i => 1000 * 2 ^ i)⟩) ∧
    (∀ g : Nat → Except JsErr RefreshedTokens,
      refreshAccessTokenRetry g = retryWithBackoff g 3 1000) ∧
    getTokensFromCodeRetry fn = retryWithBackoff fn 3 1000 := by
  have heval := retry3_eval fn
  refine ⟨?_, ?_, ?_, ?_, fun g => rfl, rfl⟩
  · rw [heval]
    cases h1 : fn 1 with
    | ok a1 => simp
    | error e1 =>
      by_cases t1 : isTransientErr e1
      · cases h2 : fn 2 with
        | ok a2 => simp [t1]
        | error e2 =>
          by_cases t2 : isTransientErr e2
          · cases h3 : fn 3 with
            | ok a3 => simp [t1, t2]
            | error e3 => simp [t1, t2]
          · simp [t1, t2]
      · simp [t1]
  · rw [heval]
    cases h1 : fn 1 with
    | ok a1 => simp
    | error e1 =>
      by_cases t1 : isTransientErr e1
      · cases h2 : fn 2 with
        | ok a2 => simp [t1, List.range_succ]
        | error e2 =>
          by_cases t2 : isTransientErr e2
          · cases h3 : fn 3 with
            | ok a3 => simp [t1, t2, List.range_succ]
            | error e3 => simp [t1, t2, List.range_succ]
          · simp [t1, t2, List.range_succ]
      · simp [t1]
  · rw [heval]
    cases h1 : fn 1 with
    | ok a1 =>
      intro j hj1 hj2
      simp at hj2
      omega
    | error e1 =>
      by_cases t1 : isTransientErr e1
      · cases h2 : fn 2 with
        | ok a2 =>
          intro j hj1 hj2
          simp [t1] at hj2
          have : j = 1 := by omega
          subst this
          exact ⟨e1, h1, t1⟩
        | error e2 =>
          by_cases t2 : isTransientErr e2
          · cases h3 : fn 3 with
            | ok a3 =>
              intro j hj1 hj2
              simp [t1, t2] at hj2
              interval_cases j
              · exact ⟨e1, h1, t1⟩
              · exact ⟨e2, h2, t2⟩
            | error e3 =>
              intro j hj1 hj2
              simp [t1, t2] at hj2
              interval_cases j
              · exact ⟨e1, h1, t1⟩
              · exact ⟨e2, h2, t2⟩
          · intro j hj1 hj2
            simp [t1, t2] at hj2
            have : j = 1 := by omega
            subst this
            exact ⟨e1, h1, t1⟩
      · intro j hj1 hj2
        simp [t1] at hj2
        omega
  · intro a e ha1 ha3 hfa hnt hprev
    rw [heval]
    interval_cases a
    · rw [hfa]
      simp [hnt]
    · obtain ⟨e1, he1, ht1⟩ := hprev 1 (by omega) (by omega)
      rw [he1, hfa]
      simp [ht1, hnt, List.range_succ]
    · obtain ⟨e1, he1, ht1⟩ := hprev 1 (by omega) (by omega)
      obtain ⟨e2, he2, ht2⟩ := hprev 2 (by omega) (by omega)
      rw [he1, he2, hfa]
      simp [ht1, ht2, hnt, List.range_succ]

/-- Witness for C6: a first attempt failing with a timeout followed by a
second attempt failing with invalid_grant stops after exactly two attempts
with one 1000 ms wait, returning the non-transient error. -/
theorem retryWithBackoff_transient_policy_witness :
    retryWithBackoff
      (fun j => if j = 1 then Except.error JsErr.timedOut
        else Except.error (JsErr.other "invalid_grant") :
        Nat → Except JsErr Unit) 3 1000 =
      ⟨Except.error (JsErr.other "invalid_grant"), 2, [1000]⟩ := by
  have h := (retryWithBackoff_transient_policy
    (fun j => if j = 1 then Except.error JsErr.timedOut
      else Except.error (JsErr.other "invalid_grant") :
      Nat → Except JsErr Unit)).2.2.2.1
    2 (JsErr.other "invalid_grant") (by omega) (by omega) rfl rfl
    (by
      intro j hj1 hj2
      have : j = 1 := by omega
      subst this
      exact ⟨JsErr.timedOut, rfl, rfl⟩)
  simpa using h

/-- C7: a cancellation by the session's learner of a scheduled session whose
recomputed start is in the future but less than 24 hours away fails with
the too-late error carrying hoursUntilSession = (start - now) / 3600
seconds, rounded to one decimal place, and the stored session record is
returned unchanged. -/
theorem cancelSession_tooLate
    (s : CancelSession) (lid : String) (reason : Option String) (nowMs : Int)
    (hl : s.learner = lid) (hs : s.status = "scheduled")
    (hfut : nowMs < cancelStartMs s)
    (h24 : cancelStartMs s - nowMs < 24 * 3600000) :
    cancelSession s lid reason nowMs =
      (.tooLate (jsRound1 (((cancelStartMs s - nowMs : Int) : ℚ) / 3600000)),
       s) := by
  unfold cancelSession
  rw [if_neg, if_neg, if_pos]
  · rw [div_lt_iff₀ (by norm_num)]
    have : ((cancelStartMs s - nowMs : Int) : ℚ) < ((24 * 3600000 : Int) : ℚ) := by
      exact_mod_cast h24
    calc ((cancelStartMs s - nowMs : Int) : ℚ) < ((24 * 3600000 : Int) : ℚ) := this
      _ = 24 * 3600000 := by push_cast; ring
  · omega
  · simp [hl, hs]

/-- Witness for C7: a session exactly 20 hours away (day 0, 20:00, now 0)
fails with hoursUntilSession = 20 and the record is unchanged
(Scenario 5 of the spec). -/
theorem cancelSession_tooLate_witness :
    cancelSession ⟨"l1", "scheduled", 0, "20:00", none, none, none⟩ "l1"
      none 0 =
      (.tooLate 20, ⟨"l1", "scheduled", 0, "20:00", none, none, none⟩) := by
  have h := cancelSession_tooLate
    ⟨"l1", "scheduled", 0, "20:00", none, none, none⟩ "l1" none 0
    rfl rfl (by decide) (by decide)
  rw [h]
  have hms : cancelStartMs ⟨"l1", "scheduled", 0, "20:00", none, none, none⟩ =
      72000000 := by decide
  rw [hms]
  have hq : ((72000000 - 0 : Int) : ℚ) / 3600000 = 20 := by norm_num
  rw [hq]
  have hfl : ⌊(20 : ℚ) * 10 + 1 / 2⌋ = 200 := by
    apply Int.floor_eq_iff.mpr
    constructor <;> norm_num
  have : jsRound1 20 = 20 := by
    unfold jsRound1 jsRound
    rw [hfl]
    norm_num
  rw [this]

/-- C8: every mutation of a speaker's calendar credential record — the
OAuth-callback connect, the explicit disconnect, the token-refresh
write-back and the status-check invalidation — preserves the invariant
that connected implies both tokens are present, and the explicit disconnect
nulls the access token, the refresh token and the expiry and clears
connected. -/
theorem credential_ops_preserve_invariant
    (c : GoogleCalendarCred) (atk rtk na : String) (ed ne : Option Int)
    (hinv : credInvariant c = true) :
    credInvariant (applyOAuthCallback c atk rtk ed) = true ∧
    credInvariant (applyDisconnect c) = true ∧
    credInvariant (applyRefreshWriteBack c na ne) = true ∧
    credInvariant (applyStatusInvalidate c) = true ∧
    (applyDisconnect c).accessToken = none ∧
    (applyDisconnect c).refreshToken = none ∧
    (applyDisconnect c).expiresAt = none ∧
    (applyDisconnect c).connected = false := by
  refine ⟨by simp [credInvariant, applyOAuthCallback],
    by simp [credInvariant, applyDisconnect], ?_,
    ?_, rfl, rfl, rfl, rfl⟩
  · unfold credInvariant applyRefreshWriteBack
    unfold credInvariant at hinv
    cases hc : c.connected with
    | false => simp [hc]
    | true =>
      rw [hc] at hinv
      simp at hinv ⊢
      exact hinv.2
  · unfold credInvariant applyStatusInvalidate
    simp

/-- Witness for C8: a connected credential holding both tokens satisfies the
invariant after each of the four mutations, and disconnect clears every
field. -/
theorem credential_ops_preserve_invariant_witness :
    credInvariant (applyOAuthCallback
      ⟨some "a", some "r", some 5, true⟩ "a2" "r2" (some 9)) = true ∧
    credInvariant (applyDisconnect ⟨some "a", some "r", some 5, true⟩) = true ∧
    credInvariant (applyRefreshWriteBack
      ⟨some "a", some "r", some 5, true⟩ "a3" (some 11)) = true ∧
    credInvariant (applyStatusInvalidate
      ⟨some "a", some "r", some 5, true⟩) = true ∧
    (applyDisconnect ⟨some "a", some "r", some 5, true⟩).accessToken = none ∧
    (applyDisconnect ⟨some "a", some "r", some 5, true⟩).refreshToken = none ∧
    (applyDisconnect ⟨some "a", some "r", some 5, true⟩).expiresAt = none ∧
    (applyDisconnect ⟨some "a", some "r", some 5, true⟩).connected = false :=
  credential_ops_preserve_invariant
    ⟨some "a", some "r", some 5, true⟩ "a2" "r2" "a3" (some 9) (some 11)
    (by decide)

end Aurora
